import Mathlib

/-!
Verification of the location-attestation system (attendance pallet,
geohash prover circuit, Schnorr-style signature scheme, oracle pipeline)
against its natural-language specification.

The definitions below are a shallow embedding of the Rust sources:
bytes are `Nat` values, byte strings are `List Nat`, storage maps are
association lists keyed the way the pallet keys them, fallible code
returns `Except`, and a `.expect`-style panic is an explicit outcome
constructor.  External cryptographic components (the runtime's hasher,
key/signature decoding and verification, the arkworks Groth16
deserializers and verifier) are abstract parameters, since the pallet
is generic over them; theorems quantify over those parameters.
-/

namespace Aoi

/-! ## Attendance pallet: data model (pallets/attendance/src/lib.rs) -/

/-- The pallet's error enum (`Error<T>` in lib.rs). -/
inductive AttError
  | invalidGeohash
  | invalidPublicKey
  | invalidSignature
  | alreadySubmitted
  | invalidProof
deriving DecidableEq

/-- The pallet's event enum (`Event<T>` in lib.rs). -/
inductive AttEvent
  | challengeCreated (who : Nat) (challenge : List Nat)
  | submissionAccepted (who : Nat) (challenge : List Nat) (signature : List Nat)
deriving DecidableEq

/-- Outcome of one dispatch: a clean `Ok(())`, a typed `DispatchResult`
error, or a runtime panic raised by an `.expect(msg)` in the pallet body. -/
inductive DispatchOutcome
  | ok
  | err (e : AttError)
  | panicked (msg : String)
deriving DecidableEq

/-- Pallet storage plus the externally observable effects of a call:
`challenges` holds the keys of the `Challenges` map (its value is always
`true`), `oracle` the `Oracle` storage value, `submissions` the keys of
the `Submissions` double map, `verifyingKey` the `ProofVerifyingKey`
storage value.  `mints` records every `T::Mint::mint` callout in order,
and `events` every deposited event, so reward issuance and event
emission are part of the state. -/
structure PalletState where
  challenges : List (List Nat)
  oracle : Option (List Nat)
  submissions : List (List Nat × Nat)
  verifyingKey : Option (List Nat)
  mints : List Nat
  events : List AttEvent
deriving DecidableEq

/-- The empty genesis state: no challenges, no oracle key, no
submissions, no verifying key, no mints, no events. -/
def initialState : PalletState :=
  { challenges := [], oracle := none, submissions := [],
    verifyingKey := none, mints := [], events := [] }

/-- `Pallet::valid_geohash`: every byte of the string is a character of
the geohash alphabet `0123456789bcdefghjkmnpqrstuvwxyz`. -/
def geohashAlphabet : List Nat :=
  "0123456789bcdefghjkmnpqrstuvwxyz".data.map Char.toNat

/-- `Pallet::valid_geohash` from lib.rs. -/
def valid_geohash (geohash : List Nat) : Bool :=
  geohash.all fun c => geohashAlphabet.contains c

/-- `Pallet::geohash_in_geohash` from lib.rs: `geohash.starts_with(challenge)`. -/
def geohash_in_geohash (geohash challenge : List Nat) : Bool :=
  challenge.isPrefixOf geohash

/-- `Pallet::create_challenge` (lib.rs, call index 0), with the signed
origin already resolved to the account `who`.  Checks, in source order:
the geohash alphabet, then absence from the `Challenges` map (both
failing with `InvalidGeohash`); on success inserts the challenge and
deposits `ChallengeCreated`. -/
def create_challenge (who : Nat) (challenge : List Nat) (s : PalletState) :
    DispatchOutcome × PalletState :=
  if !valid_geohash challenge then (.err .invalidGeohash, s)
  else if s.challenges.contains challenge then (.err .invalidGeohash, s)
  else (.ok,
    { s with challenges := s.challenges ++ [challenge],
             events := s.events ++ [.challengeCreated who challenge] })

/-- The runtime configuration items `submission_with_signature` is
generic over: `T::PayloadHasher::hash`, `T::PublicKeyOfOracle::from_slice`,
`T::Signature::from_slice` (both returning `none` on rejection) and
`T::Verify::verify`. -/
structure SigConfig where
  Hash : Type
  PubKey : Type
  Sig : Type
  hashFn : List Nat → Hash
  pubKeyFromSlice : List Nat → Option PubKey
  sigFromSlice : List Nat → Option Sig
  verify : Sig → Hash → PubKey → Bool

/-- `Pallet::submission_with_signature` (lib.rs, call index 1), with the
signed origin already resolved to `who`.  Source order: replay check on
`Submissions`, prefix check `location.starts_with(challenge)`, then
`Oracle::get().expect("oracle key")` (a panic when no oracle key is
registered), key decoding (`InvalidPublicKey`), signature decoding and
verification (both `InvalidSignature`); on success mints, inserts the
submission record and deposits `SubmissionAccepted`. -/
def submission_with_signature (cfg : SigConfig) (who : Nat)
    (challenge location signature : List Nat) (s : PalletState) :
    DispatchOutcome × PalletState :=
  if s.submissions.contains (challenge, who) then (.err .alreadySubmitted, s)
  else if !geohash_in_geohash location challenge then (.err .invalidGeohash, s)
  else
    match s.oracle with
    | none => (.panicked "oracle key", s)
    | some rawKey =>
      match cfg.pubKeyFromSlice rawKey with
      | none => (.err .invalidPublicKey, s)
      | some publicKey =>
        match cfg.sigFromSlice signature with
        | none => (.err .invalidSignature, s)
        | some sig =>
          if cfg.verify sig (cfg.hashFn location) publicKey then
            (.ok,
              { s with
                mints := s.mints ++ [who],
                submissions := s.submissions ++ [(challenge, who)],
                events := s.events ++ [.submissionAccepted who challenge signature] })
          else (.err .invalidSignature, s)

/-- `Pallet::set_oracle_public_key` (lib.rs, call index 2), with the
root origin already checked: unconditionally overwrites the stored key. -/
def set_oracle_public_key (publicKey : List Nat) (s : PalletState) :
    DispatchOutcome × PalletState :=
  (.ok, { s with oracle := some publicKey })

/-- The arkworks components `verify_zkp` calls:
`Proof::<Bn254>::deserialize_uncompressed`,
`VerifyingKey::deserialize_uncompressed` (both `none` on a
deserialization error) and `Groth16::<Bn254>::verify` (`none` on an
`Err` from the verifier). -/
structure ZkConfig where
  ProofT : Type
  VkT : Type
  deserializeProof : List Nat → Option ProofT
  deserializeVk : List Nat → Option VkT
  groth16Verify : VkT → List Nat → ProofT → Option Bool

/-- Result of `Pallet::verify_zkp`: a boolean, or a panic from one of
its three `.expect` calls. -/
inductive ZkOutcome
  | verified (b : Bool)
  | panicked (msg : String)
deriving DecidableEq

/-- `Pallet::verify_zkp` (lib.rs): deserializes the proof
(`.expect("proof")`), reads and deserializes the verifying key
(`.expect("verifying key")` twice), builds the public input as the
field encoding of the challenge bytes, and runs Groth16 verification
(`.expect("verified")`). -/
def verify_zkp (zk : ZkConfig) (proofBytes challenge : List Nat)
    (s : PalletState) : ZkOutcome :=
  match zk.deserializeProof proofBytes with
  | none => .panicked "proof"
  | some p =>
    match s.verifyingKey with
    | none => .panicked "verifying key"
    | some vkBytes =>
      match zk.deserializeVk vkBytes with
      | none => .panicked "verifying key"
      | some vk =>
        match zk.groth16Verify vk challenge p with
        | none => .panicked "verified"
        | some b => .verified b

/-- `Pallet::submission_with_proof` (lib.rs, call index 3), with the
signed origin already resolved to `who`: runs `verify_zkp` (failure is
`InvalidProof`, a panic propagates), then mints and inserts the
submission record.  No replay check is performed and no event is
deposited. -/
def submission_with_proof (zk : ZkConfig) (who : Nat)
    (challenge proofBytes : List Nat) (s : PalletState) :
    DispatchOutcome × PalletState :=
  match verify_zkp zk proofBytes challenge s with
  | .panicked m => (.panicked m, s)
  | .verified false => (.err .invalidProof, s)
  | .verified true =>
    (.ok,
      { s with
        mints := s.mints ++ [who],
        submissions := s.submissions ++ [(challenge, who)] })

/-! ## Concrete instantiations of the abstract components, used by
witnesses and counterexamples -/

/-- A concrete runtime configuration: identity hasher, length-checking
key/signature decoders (32 and 64 bytes, the bounds of `RawPublicKey`
and `RawSignature`), and a verifier that accepts. -/
def acceptCfg : SigConfig :=
  { Hash := List Nat, PubKey := List Nat, Sig := List Nat,
    hashFn := id,
    pubKeyFromSlice := fun l => if l.length = 32 then some l else none,
    sigFromSlice := fun l => if l.length = 64 then some l else none,
    verify := fun _ _ _ => true }

/-- Like `acceptCfg` but the verifier rejects every signature. -/
def rejectCfg : SigConfig :=
  { Hash := List Nat, PubKey := List Nat, Sig := List Nat,
    hashFn := id,
    pubKeyFromSlice := fun l => if l.length = 32 then some l else none,
    sigFromSlice := fun l => if l.length = 64 then some l else none,
    verify := fun _ _ _ => false }

/-- A hypothetical instantiation of the abstract components in which
both deserializers succeed and Groth16 accepts, used to exercise the
success branch of the embedded dispatch logic.  The concrete arkworks
deserializers cannot produce this situation at any pallet-supplied
input — `RawProof` is capped at 64 bytes while an uncompressed
`Proof<Bn254>` is 256 — so this instantiation describes branch
semantics, not a reachable execution of the shipped runtime. -/
def acceptAllZk : ZkConfig :=
  { ProofT := Unit, VkT := Unit,
    deserializeProof := fun _ => some (),
    deserializeVk := fun _ => some (),
    groth16Verify := fun _ _ _ => some true }

/-- An arkworks instantiation in which proof deserialization fails —
the situation every byte string shorter than the 256-byte uncompressed
`Proof<Bn254>` encoding produces (the pallet's `RawProof` is capped at
64 bytes). -/
def rejectProofZk : ZkConfig :=
  { ProofT := Unit, VkT := Unit,
    deserializeProof := fun _ => none,
    deserializeVk := fun _ => some (),
    groth16Verify := fun _ _ _ => some true }

/-- Faithfulness of a `ZkConfig` to the fixed arkworks proof
deserializer: `Proof::<Bn254>::deserialize_uncompressed` reads two
uncompressed G1 affine points (64 bytes each) and one uncompressed G2
affine point (128 bytes) — 256 bytes in total — so it fails with an
end-of-input error on every shorter byte string.  Every model of the
real deserializer satisfies this predicate. -/
def proofDeserializerFaithful (zk : ZkConfig) : Prop :=
  ∀ bytes : List Nat, bytes.length < 256 → zk.deserializeProof bytes = none

/-- A `ZkConfig` implementing the length preconditions of the real
arkworks deserializers (256 bytes for an uncompressed proof, 456 for
an uncompressed verifying key with an empty IC vector), accepting
beyond them. -/
def lengthCheckedZk : ZkConfig :=
  { ProofT := Unit, VkT := Unit,
    deserializeProof := fun bytes => if bytes.length < 256 then none else some (),
    deserializeVk := fun bytes => if bytes.length < 456 then none else some (),
    groth16Verify := fun _ _ _ => some true }

/-- A state in which account 1 already has an accepted submission for
challenge `"bcd"` and was minted for it, and a verifying key is set. -/
def replayState : PalletState :=
  { challenges := [[98, 99, 100]], oracle := none,
    submissions := [([98, 99, 100], 1)], verifyingKey := some [0],
    mints := [1], events := [] }

/-- A state with challenge `"bcd"` created, a verifying key set, and no
submissions yet. -/
def freshZkState : PalletState :=
  { challenges := [[98, 99, 100]], oracle := none, submissions := [],
    verifyingKey := some [0], mints := [], events := [] }

/-- A state with challenge `"bcd"` created and a 32-byte oracle key
registered. -/
def oracleState : PalletState :=
  { challenges := [[98, 99, 100]], oracle := some (List.replicate 32 0),
    submissions := [], verifyingKey := none, mints := [], events := [] }

/-! ## Geohash prover (geohash-prover/src/lib.rs) -/

/-- `SynthesisError` variants relevant to the circuit
(`ark_relations::r1cs::SynthesisError`). -/
inductive SynthesisError
  | assignmentMissing
  | unsatisfiable
deriving DecidableEq

/-- `CompareCircuit<F>`: optional public `shorter` and private `larger`
field-element sequences. -/
structure CompareCircuit (F : Type) where
  shorter : Option (List F)
  larger : Option (List F)

/-- `CompareCircuit::new`. -/
def CompareCircuit.new {F : Type} (shorter larger : List F) : CompareCircuit F :=
  { shorter := some shorter, larger := some larger }

/-- `PrimeString::<F>::from(&str)` composed with `Vec<F>::from`: each
byte of the string mapped to the field element of its code point.  We
keep field elements as the `Nat` code itself composed with a coercion,
so the encoding is `fun c => ofByte c`. -/
def primeStringOfBytes {F : Type} (ofByte : Nat → F) (bytes : List Nat) : List F :=
  bytes.map ofByte

/-- `CompareCircuit::generate_constraints`: fails with
`AssignmentMissing` when either assignment is absent, with
`Unsatisfiable` when `shorter` is empty, `larger` is empty, or
`shorter` is longer than `larger`; otherwise allocates one public
input per element of `shorter`, one private witness per element of
`larger.take shorter.length`, and enforces pairwise equality.  The
resulting system is represented by the list of enforced pairs
(witness value, public value): one pair `(larger[i], shorter[i])`
for each `i < shorter.length` and nothing else. -/
def generate_constraints {F : Type} (c : CompareCircuit F) :
    Except SynthesisError (List (F × F)) :=
  match c.shorter with
  | none => .error .assignmentMissing
  | some shorter =>
    match c.larger with
    | none => .error .assignmentMissing
    | some larger =>
      if shorter.isEmpty || larger.isEmpty || shorter.length > larger.length then
        .error .unsatisfiable
      else
        .ok ((larger.take shorter.length).zip shorter)

/-- Satisfaction of the generated system under the circuit's own
assignment: every enforced equality holds. -/
def constraintsSatisfied {F : Type} [DecidableEq F] (cs : List (F × F)) : Bool :=
  cs.all fun p => decide (p.1 = p.2)

/-- `setup_groth16` (geohash-prover/src/lib.rs):
`Groth16::circuit_specific_setup` synthesizes the circuit and
propagates any synthesis error; the produced key material itself is
external cryptography, modelled as the synthesized system. -/
def setup_groth16 {F : Type} (c : CompareCircuit F) :
    Except SynthesisError (List (F × F) × List (F × F)) :=
  (generate_constraints c).map fun cs => (cs, cs)

/-- `create_proof` (geohash-prover/src/lib.rs): `Groth16::prove`
synthesizes the circuit with the prover's assignment and propagates
any synthesis error; the proof object itself is external
cryptography, modelled as the synthesized system. -/
def create_proof {F : Type} (c : CompareCircuit F) :
    Except SynthesisError (List (F × F)) :=
  generate_constraints c

/-! ## Schnorr-style signature scheme (ark-fields/src/lib.rs)

The scheme lives on the prime-order group `G1` of bls12-381.  A cyclic
group of prime order `q` is isomorphic to `ZMod q` via the discrete
logarithm of the generator, so group elements are embedded as their
exponents: the generator is `1`, point addition is `+`, and scalar
multiplication of a point is `*`.  The SHA-256 based challenge
derivation `hash(message, public_key, R)` composed with
`from_be_bytes_mod_order` is kept abstract as a function `H` of the
same three arguments, since both `sign` and `verify` call it on the
same serialized values. -/

/-- Order of the bls12-381 scalar field `Fr` (equally of `G1`). -/
def blsOrder : Nat :=
  52435875175126190479447740508185965837690552500527637822603658699938581184513

/-- A scalar of bls12-381's `Fr`. -/
abbrev BlsScalar := ZMod blsOrder

/-- The generator of `G1` in exponent coordinates. -/
def g1Generator : BlsScalar := 1

/-- `Keypair` (ark-fields/src/lib.rs); group elements in exponent
coordinates. -/
structure Keypair where
  private_key : BlsScalar
  public_key : BlsScalar

/-- `Signature` (ark-fields/src/lib.rs): commitment point `R` (exponent
coordinates) and response scalar `z`. -/
structure SchnorrSig where
  R : BlsScalar
  z : BlsScalar

/-- `generate_key_pair`, with the sampled private scalar passed in
explicitly in place of the thread RNG draw:
`public_key = generator * private_key`. -/
def generate_key_pair (privateKey : BlsScalar) : Keypair :=
  { private_key := privateKey, public_key := privateKey * g1Generator }

/-- `sign`, with the sampled nonce `r` passed in explicitly in place of
the thread RNG draw: `R = generator * r`,
`c = H(message, public_key, R)`, `z = r + c * private_key`. -/
def sign (H : List Nat → BlsScalar → BlsScalar → BlsScalar)
    (keypair : Keypair) (r : BlsScalar) (message : List Nat) : SchnorrSig :=
  let Rpt := r * g1Generator
  let c := H message keypair.public_key Rpt
  { R := Rpt, z := r + c * keypair.private_key }

/-- `verify`: recomputes `c = H(message, public_key, R)` and accepts
iff `R + public_key * c = generator * z`. -/
def verify (H : List Nat → BlsScalar → BlsScalar → BlsScalar)
    (publicKey : BlsScalar) (signature : SchnorrSig) (message : List Nat) : Bool :=
  let c := H message publicKey signature.R
  decide (signature.R + publicKey * c = signature.z * g1Generator)

/-! ## Oracle attestation pipeline (oracle/src/lib.rs, main.rs)

The pipeline is generic over the `Location`, `Hasher` and `Signer`
capabilities, so they are embedded as first-class records; any
instance a Rust impl of the trait could provide is a legitimate
instantiation. -/

/-- `LocationError` (oracle/src/lib.rs). -/
inductive LocationError
  | location
  | output (msg : String)
deriving DecidableEq

/-- `SignerError` (oracle/src/lib.rs). -/
inductive SignerError
  | signatureFailed (msg : String)
deriving DecidableEq

/-- The `Location` capability: `current_location(accuracy)` returns the
byte representation of the location output. -/
structure LocationSource where
  current_location : Nat → Except LocationError (List Nat)

/-- The `Hasher` capability: a total 32-byte digest of the message. -/
structure HasherCap where
  hash : List Nat → List Nat

/-- The `Signer` capability: `sign(message_hash, key)`, fallible. -/
structure SignerCap where
  sign : List Nat → List Nat → Except SignerError (List Nat)

/-- `sign_location` (oracle/src/lib.rs): signs `hash(location bytes)`
with the key.  Its result is the signature alone. -/
def sign_location (S : SignerCap) (H : HasherCap)
    (key : List Nat) (location : List Nat) : Except SignerError (List Nat) :=
  S.sign (H.hash location) key

/-- The composed `run` flow of the oracle binary (oracle/src/main.rs):
fetch the current location at the requested accuracy, then
`sign_location`; the first failing stage aborts the run with its error,
and the successful result printed as JSON is the value produced by
`sign_location`. -/
def oracle_run (L : LocationSource) (S : SignerCap) (H : HasherCap)
    (accuracy : Nat) (key : List Nat) :
    Except (LocationError ⊕ SignerError) (List Nat) :=
  match L.current_location accuracy with
  | .error e => .error (.inl e)
  | .ok location =>
    match sign_location S H key location with
    | .error e => .error (.inr e)
    | .ok signature => .ok signature

/-- A location source returning a fixed byte string, for concrete runs. -/
def constLocation (bytes : List Nat) : LocationSource :=
  { current_location := fun _ => .ok bytes }

/-- A deterministic signer concatenating message hash and key, for
concrete runs. -/
def concatSigner : SignerCap :=
  { sign := fun m k => .ok (m ++ k) }

/-- A signer returning a fixed empty signature: a legitimate `Signer`
instance (the trait promises nothing about injectivity) under which two
different locations yield identical results. -/
def constSigner : SignerCap :=
  { sign := fun _ _ => .ok [] }

/-- The identity digest, for concrete runs. -/
def idHasher : HasherCap :=
  { hash := fun l => l }

end Aoi

namespace Aoi

/-! ## Theorems for claim C9: create_challenge -/

/-- C9: `create_challenge(challenge)` succeeds iff the challenge uses only
the geohash alphabet and is not already present; on any failure the
state is unchanged; after a successful creation, a second call with the
same challenge fails with the pallet's invalid/duplicate error
(`InvalidGeohash`), the challenge set gains no second entry (the count
of that challenge stays exactly 1), and the state is unchanged by the
failing call. -/
theorem create_challenge_spec (who who2 : Nat) (challenge : List Nat)
    (s : PalletState) :
    ((create_challenge who challenge s).1 = .ok ↔
      valid_geohash challenge = true ∧ challenge ∉ s.challenges) ∧
    ((create_challenge who challenge s).1 ≠ .ok →
      create_challenge who challenge s = (.err .invalidGeohash, s)) ∧
    (valid_geohash challenge = true → challenge ∉ s.challenges →
      create_challenge who2 challenge (create_challenge who challenge s).2 =
        (.err .invalidGeohash, (create_challenge who challenge s).2) ∧
      (create_challenge who challenge s).2.challenges.count challenge = 1) := by
  unfold create_challenge
  refine ⟨?_, ?_, ?_⟩
  · constructor
    · intro h
      by_cases hv : valid_geohash challenge
      · by_cases hc : challenge ∈ s.challenges
        · simp [hv, hc] at h
        · exact ⟨hv, hc⟩
      · simp [hv] at h
    · rintro ⟨hv, hc⟩
      simp [hv, hc]
  · intro h
    by_cases hv : valid_geohash challenge
    · by_cases hc : challenge ∈ s.challenges
      · simp [hv, hc]
      · simp [hv, hc] at h
    · simp [hv]
  · intro hv hc
    refine ⟨by simp [hv, hc], ?_⟩
    simp [hv, hc, List.count_append, List.count_eq_zero.mpr hc]

/-- Witness for C9 at a concrete input: `who = 1`, challenge `"bcd"`
(bytes `[98, 99, 100]`), empty genesis state. -/
theorem create_challenge_spec_witness :
    ((create_challenge 1 [98, 99, 100] initialState).1 = .ok ↔
      valid_geohash [98, 99, 100] = true ∧
      [98, 99, 100] ∉ initialState.challenges) ∧
    (valid_geohash [98, 99, 100] = true ∧
      [98, 99, 100] ∉ initialState.challenges) ∧
    (create_challenge 2 [98, 99, 100]
        (create_challenge 1 [98, 99, 100] initialState).2 =
      (.err .invalidGeohash, (create_challenge 1 [98, 99, 100] initialState).2) ∧
      (create_challenge 1 [98, 99, 100] initialState).2.challenges.count
          [98, 99, 100] = 1) :=
  ⟨(create_challenge_spec 1 2 [98, 99, 100] initialState).1,
   ⟨by decide, by decide⟩,
   (create_challenge_spec 1 2 [98, 99, 100] initialState).2.2
     (by decide) (by decide)⟩

/-! ## Theorems for claim C5: submission_with_signature error ordering -/

/-- C5: `submission_with_signature` checks its preconditions in the
order already-submitted, invalid-prefix, invalid-key,
invalid-signature, short-circuiting on the first failure with the
corresponding specific error (`AlreadySubmitted` / `InvalidGeohash` /
`InvalidPublicKey` / `InvalidSignature`), and on every failing
precondition the returned state is the unchanged input state — so no
storage is written and no reward is minted (the `mints` ledger is part
of the state). -/
theorem submission_with_signature_error_order (cfg : SigConfig) (who : Nat)
    (challenge location signature : List Nat) (s : PalletState) :
    ((challenge, who) ∈ s.submissions →
      submission_with_signature cfg who challenge location signature s =
        (.err .alreadySubmitted, s)) ∧
    ((challenge, who) ∉ s.submissions →
      geohash_in_geohash location challenge = false →
      submission_with_signature cfg who challenge location signature s =
        (.err .invalidGeohash, s)) ∧
    (∀ rawKey, (challenge, who) ∉ s.submissions →
      geohash_in_geohash location challenge = true →
      s.oracle = some rawKey → cfg.pubKeyFromSlice rawKey = none →
      submission_with_signature cfg who challenge location signature s =
        (.err .invalidPublicKey, s)) ∧
    (∀ rawKey publicKey, (challenge, who) ∉ s.submissions →
      geohash_in_geohash location challenge = true →
      s.oracle = some rawKey → cfg.pubKeyFromSlice rawKey = some publicKey →
      cfg.sigFromSlice signature = none →
      submission_with_signature cfg who challenge location signature s =
        (.err .invalidSignature, s)) ∧
    (∀ rawKey publicKey sg, (challenge, who) ∉ s.submissions →
      geohash_in_geohash location challenge = true →
      s.oracle = some rawKey → cfg.pubKeyFromSlice rawKey = some publicKey →
      cfg.sigFromSlice signature = some sg →
      cfg.verify sg (cfg.hashFn location) publicKey = false →
      submission_with_signature cfg who challenge location signature s =
        (.err .invalidSignature, s)) := by
  refine ⟨?_, ?_, ?_, ?_, ?_⟩
  · intro h1
    simp [submission_with_signature, h1]
  · intro h1 h2
    simp [submission_with_signature, h1, h2]
  · intro rawKey h1 h2 ho hp
    simp [submission_with_signature, h1, h2, ho, hp]
  · intro rawKey publicKey h1 h2 ho hp hs
    simp [submission_with_signature, h1, h2, ho, hp, hs]
  · intro rawKey publicKey sg h1 h2 ho hp hs hv
    simp [submission_with_signature, h1, h2, ho, hp, hs, hv]

/-- Witness for C5, exercising all five precondition failures at
concrete inputs: a replayed pair, a location that does not start with
the challenge, a stored oracle key of the wrong length, a signature of
the wrong length, and a verifier that rejects. -/
theorem submission_with_signature_error_order_witness :
    (submission_with_signature acceptCfg 1 [98, 99, 100] [98, 99, 100, 101] []
        replayState = (.err .alreadySubmitted, replayState)) ∧
    (submission_with_signature acceptCfg 1 [98, 99, 100] [99, 99] []
        oracleState = (.err .invalidGeohash, oracleState)) ∧
    (submission_with_signature acceptCfg 1 [98, 99, 100] [98, 99, 100, 101] []
        { oracleState with oracle := some [0] } =
      (.err .invalidPublicKey, { oracleState with oracle := some [0] })) ∧
    (submission_with_signature acceptCfg 1 [98, 99, 100] [98, 99, 100, 101] []
        oracleState = (.err .invalidSignature, oracleState)) ∧
    (submission_with_signature rejectCfg 1 [98, 99, 100] [98, 99, 100, 101]
        (List.replicate 64 7) oracleState = (.err .invalidSignature, oracleState)) :=
  ⟨(submission_with_signature_error_order acceptCfg 1 [98, 99, 100]
      [98, 99, 100, 101] [] replayState).1 (by decide),
   (submission_with_signature_error_order acceptCfg 1 [98, 99, 100]
      [99, 99] [] oracleState).2.1 (by decide) (by decide),
   (submission_with_signature_error_order acceptCfg 1 [98, 99, 100]
      [98, 99, 100, 101] [] { oracleState with oracle := some [0] }).2.2.1
      [0] (by decide) (by decide) rfl rfl,
   (submission_with_signature_error_order acceptCfg 1 [98, 99, 100]
      [98, 99, 100, 101] [] oracleState).2.2.2.1
      (List.replicate 32 0) (List.replicate 32 0) (by decide) (by decide) rfl
      rfl rfl,
   (submission_with_signature_error_order rejectCfg 1 [98, 99, 100]
      [98, 99, 100, 101] (List.replicate 64 7) oracleState).2.2.2.2
      (List.replicate 32 0) (List.replicate 32 0) (List.replicate 64 7)
      (by decide) (by decide) rfl rfl rfl rfl⟩

/-! ## Theorems for claim C1: at-most-one accepted submission -/

/-- C1: at most one submission is ever accepted and `Mint::mint` fires
at most once per (challenge, participant) pair.  After an accepted
submission for the pair, every later `submission_with_signature` for
the same pair fails with `AlreadySubmitted`, minting nothing and
leaving the state unchanged; and every later `submission_with_proof`
also fails to accept: under any `ZkConfig` faithful to the arkworks
proof deserializer, every proof the pallet can receive (`RawProof` is
capped at 64 bytes, an uncompressed `Proof<Bn254>` is 256) stops at
the `.expect("proof")` panic before the mint callout, so nothing is
minted and the state is unchanged.  (That the stop is a panic rather
than a typed error is the separately recorded defect of C6.) -/
theorem at_most_one_submission (cfg : SigConfig) (zk : ZkConfig)
    (hzk : proofDeserializerFaithful zk) (who : Nat)
    (challenge location signature proofBytes : List Nat)
    (hlen : proofBytes.length ≤ 64) (s : PalletState)
    (hsub : (challenge, who) ∈ s.submissions) :
    submission_with_signature cfg who challenge location signature s =
      (.err .alreadySubmitted, s) ∧
    submission_with_proof zk who challenge proofBytes s =
      (.panicked "proof", s) := by
  constructor
  · simp [submission_with_signature, hsub]
  · have hd : zk.deserializeProof proofBytes = none :=
      hzk proofBytes (by omega)
    simp [submission_with_proof, verify_zkp, hd]

/-- Witness for C1 at concrete inputs: in `replayState` account 1
already holds an accepted, minted submission for challenge `"bcd"`;
the replayed signature call fails with `AlreadySubmitted` and the
replayed proof call stops at the proof panic, both leaving the state
(mint ledger included) unchanged. -/
theorem at_most_one_submission_witness :
    submission_with_signature acceptCfg 1 [98, 99, 100] [98, 99, 100, 101] []
        replayState = (.err .alreadySubmitted, replayState) ∧
    submission_with_proof lengthCheckedZk 1 [98, 99, 100] [] replayState =
      (.panicked "proof", replayState) :=
  at_most_one_submission acceptCfg lengthCheckedZk
    (by intro b hb; simp [lengthCheckedZk, hb]) 1 [98, 99, 100]
    [98, 99, 100, 101] [] [] (by decide) replayState (by decide)

/-! ## Theorems for claim C7: effects of submission_with_proof -/

/-- C7 (claim is right, code is wrong): the claim — from the spec's
"On success: identical reward/record/event effects as above" — promises
that a successful `submission_with_proof` mints once, sets the record
and emits the acceptance event.  The code never delivers those
effects.  First, success is unreachable: under any `ZkConfig` faithful
to the arkworks proof deserializer, every proof the pallet can receive
(`RawProof` is capped at 64 bytes, an uncompressed `Proof<Bn254>` is
256) panics at `.expect("proof")` and leaves the state unchanged — and
no extrinsic ever writes `ProofVerifyingKey`, so the later
`.expect("verifying key")` could not be passed either.  Second, the
success branch of the source contains no `deposit_event` call: under
any instantiation whose proof check does pass, the event list is left
unchanged, against the claimed identical event effects (the
`SubmissionAccepted` event requires a signature field the proof path
does not have). -/
theorem submission_with_proof_success_unreachable (zk : ZkConfig)
    (hzk : proofDeserializerFaithful zk) (who : Nat)
    (challenge proofBytes : List Nat) (hlen : proofBytes.length ≤ 64)
    (s : PalletState) :
    submission_with_proof zk who challenge proofBytes s =
      (.panicked "proof", s) ∧
    (∀ zk2 : ZkConfig,
      verify_zkp zk2 proofBytes challenge s = .verified true →
      (submission_with_proof zk2 who challenge proofBytes s).2.events =
        s.events) := by
  constructor
  · have hd : zk.deserializeProof proofBytes = none :=
      hzk proofBytes (by omega)
    simp [submission_with_proof, verify_zkp, hd]
  · intro zk2 h2
    simp [submission_with_proof, h2]

/-- Witness for C7 at concrete inputs: the empty proof in
`freshZkState` panics under the length-checking deserializer, and the
success branch (exercised under the hypothetical accepting
instantiation) leaves the event list unchanged. -/
theorem submission_with_proof_success_unreachable_witness :
    submission_with_proof lengthCheckedZk 1 [98, 99, 100] [] freshZkState =
      (.panicked "proof", freshZkState) ∧
    (submission_with_proof acceptAllZk 1 [98, 99, 100] []
        freshZkState).2.events = freshZkState.events :=
  ⟨(submission_with_proof_success_unreachable lengthCheckedZk
      (by intro b hb; simp [lengthCheckedZk, hb]) 1 [98, 99, 100] []
      (by decide) freshZkState).1,
   (submission_with_proof_success_unreachable lengthCheckedZk
      (by intro b hb; simp [lengthCheckedZk, hb]) 1 [98, 99, 100] []
      (by decide) freshZkState).2 acceptAllZk rfl⟩

/-! ## Theorems for claim C10: challenge existence is not a precondition -/

/-- Helper: `verify_zkp` never reads the `Challenges` storage. -/
theorem verify_zkp_ignores_challenges (zk : ZkConfig)
    (proofBytes challenge : List Nat) (s : PalletState)
    (chs : List (List Nat)) :
    verify_zkp zk proofBytes challenge { s with challenges := chs } =
      verify_zkp zk proofBytes challenge s :=
  rfl

/-- C10: neither submission operation reads the `Challenges` storage
map — replacing that map by anything changes neither the outcome nor
any other state field of `submission_with_signature` or
`submission_with_proof` — and consequently, for a challenge that was
never created, a submission is accepted (record set, reward minted)
whenever the remaining checks pass: the replay, prefix, key and
signature checks on the signature path, or the proof check on the
proof path. -/
theorem submissions_ignore_challenges (cfg : SigConfig) (zk : ZkConfig)
    (who : Nat) (challenge location signature proofBytes : List Nat)
    (s : PalletState) (chs : List (List Nat)) :
    (submission_with_signature cfg who challenge location signature
        { s with challenges := chs } =
      ((submission_with_signature cfg who challenge location signature s).1,
        { (submission_with_signature cfg who challenge location signature s).2
          with challenges := chs })) ∧
    (submission_with_proof zk who challenge proofBytes
        { s with challenges := chs } =
      ((submission_with_proof zk who challenge proofBytes s).1,
        { (submission_with_proof zk who challenge proofBytes s).2
          with challenges := chs })) ∧
    (∀ rawKey publicKey sg, challenge ∉ s.challenges →
      (challenge, who) ∉ s.submissions →
      geohash_in_geohash location challenge = true →
      s.oracle = some rawKey → cfg.pubKeyFromSlice rawKey = some publicKey →
      cfg.sigFromSlice signature = some sg →
      cfg.verify sg (cfg.hashFn location) publicKey = true →
      submission_with_signature cfg who challenge location signature s =
        (.ok, { s with
                mints := s.mints ++ [who],
                submissions := s.submissions ++ [(challenge, who)],
                events := s.events ++
                  [.submissionAccepted who challenge signature] })) ∧
    (challenge ∉ s.challenges →
      verify_zkp zk proofBytes challenge s = .verified true →
      submission_with_proof zk who challenge proofBytes s =
        (.ok, { s with
                mints := s.mints ++ [who],
                submissions := s.submissions ++ [(challenge, who)] })) := by
  refine ⟨?_, ?_, ?_, ?_⟩
  · by_cases h1 : (challenge, who) ∈ s.submissions
    · simp [submission_with_signature, h1]
    · by_cases h2 : geohash_in_geohash location challenge
      · rcases ho : s.oracle with _ | rawKey
        · simp [submission_with_signature, h1, h2, ho]
        · rcases hp : cfg.pubKeyFromSlice rawKey with _ | pk
          · simp [submission_with_signature, h1, h2, ho, hp]
          · rcases hs : cfg.sigFromSlice signature with _ | sg
            · simp [submission_with_signature, h1, h2, ho, hp, hs]
            · by_cases hv : cfg.verify sg (cfg.hashFn location) pk
              · simp [submission_with_signature, h1, h2, ho, hp, hs, hv]
              · simp [submission_with_signature, h1, h2, ho, hp, hs, hv]
      · simp [submission_with_signature, h1, h2]
  · have hz : verify_zkp zk proofBytes challenge { s with challenges := chs } =
        verify_zkp zk proofBytes challenge s := rfl
    rcases hr : verify_zkp zk proofBytes challenge s with b | m
    · cases b
      · simp [submission_with_proof, hz, hr]
      · simp [submission_with_proof, hz, hr]
    · simp [submission_with_proof, hz, hr]
  · intro rawKey publicKey sg hch h1 h2 ho hp hs hv
    simp [submission_with_signature, h1, h2, ho, hp, hs, hv]
  · intro hch hz
    simp [submission_with_proof, hz]

/-- Witness for C10 at concrete inputs: challenge `"cd"` (bytes
`[99, 100]`) was never created in `oracleState` or `freshZkState`, yet
both submission paths accept. -/
theorem submissions_ignore_challenges_witness :
    (submission_with_signature acceptCfg 1 [99, 100] [99, 100, 101]
        (List.replicate 64 7) oracleState =
      (.ok, { oracleState with
              mints := oracleState.mints ++ [1],
              submissions := oracleState.submissions ++ [([99, 100], 1)],
              events := oracleState.events ++
                [.submissionAccepted 1 [99, 100] (List.replicate 64 7)] })) ∧
    (submission_with_proof acceptAllZk 1 [99, 100] [] freshZkState =
      (.ok, { freshZkState with
              mints := freshZkState.mints ++ [1],
              submissions := freshZkState.submissions ++ [([99, 100], 1)] })) :=
  ⟨(submissions_ignore_challenges acceptCfg acceptAllZk 1 [99, 100]
      [99, 100, 101] (List.replicate 64 7) [] oracleState []).2.2.1
      (List.replicate 32 0) (List.replicate 32 0) (List.replicate 64 7)
      (by decide) (by decide) (by decide) rfl rfl rfl rfl,
   (submissions_ignore_challenges acceptCfg acceptAllZk 1 [99, 100]
      [99, 100, 101] (List.replicate 64 7) [] freshZkState []).2.2.2
      (by decide) rfl⟩

/-! ## Theorems for claim C6: operations that abort instead of
returning a typed outcome -/

/-- C6 (claim is right, code is wrong): the spec demands every
ledger-facing operation return a typed outcome, but the code aborts.
`submission_with_proof` panics (`.expect("proof")`) whenever the proof
bytes fail to deserialize — which is every `RawProof`, since the
storage type caps proofs at 64 bytes while an uncompressed
`Proof<Bn254>` needs 256 — and panics (`.expect("verifying key")`)
when no verifying key is registered; `submission_with_signature`
panics (`.expect("oracle key")`) when no oracle key is registered.
None of these return the typed errors the claim requires. -/
theorem submission_panic_cases (cfg : SigConfig) (zk : ZkConfig) (who : Nat)
    (challenge location signature proofBytes : List Nat) (s : PalletState) :
    (zk.deserializeProof proofBytes = none →
      submission_with_proof zk who challenge proofBytes s =
        (.panicked "proof", s)) ∧
    (∀ p, zk.deserializeProof proofBytes = some p → s.verifyingKey = none →
      submission_with_proof zk who challenge proofBytes s =
        (.panicked "verifying key", s)) ∧
    ((challenge, who) ∉ s.submissions →
      geohash_in_geohash location challenge = true → s.oracle = none →
      submission_with_signature cfg who challenge location signature s =
        (.panicked "oracle key", s)) := by
  refine ⟨?_, ?_, ?_⟩
  · intro h
    simp [submission_with_proof, verify_zkp, h]
  · intro p hp hv
    simp [submission_with_proof, verify_zkp, hp, hv]
  · intro h1 h2 ho
    simp [submission_with_signature, h1, h2, ho]

/-- Witness for C6's panic cases at concrete inputs: an empty proof
byte string that fails to deserialize, a state with no verifying key,
and a state with no oracle key. -/
theorem submission_panic_cases_witness :
    (submission_with_proof rejectProofZk 1 [98, 99, 100] [] initialState =
      (.panicked "proof", initialState)) ∧
    (submission_with_proof acceptAllZk 1 [98, 99, 100] [] initialState =
      (.panicked "verifying key", initialState)) ∧
    (submission_with_signature acceptCfg 1 [98, 99, 100] [98, 99, 100, 101] []
        freshZkState = (.panicked "oracle key", freshZkState)) :=
  ⟨(submission_panic_cases acceptCfg rejectProofZk 1 [98, 99, 100]
      [98, 99, 100, 101] [] [] initialState).1 rfl,
   (submission_panic_cases acceptCfg acceptAllZk 1 [98, 99, 100]
      [98, 99, 100, 101] [] [] initialState).2.1 () rfl rfl,
   (submission_panic_cases acceptCfg acceptAllZk 1 [98, 99, 100]
      [98, 99, 100, 101] [] [] freshZkState).2.2 (by decide) (by decide) rfl⟩

/-! ## Theorems for claim C2: the circuit proves exactly position-wise
equality on the public-input positions -/

/-- Helper: the pairwise-equality system of `a.zip b` is satisfied iff
the lists agree at every common index. -/
theorem constraintsSatisfied_zip_iff {F : Type} [DecidableEq F] :
    ∀ a b : List F,
      (constraintsSatisfied (a.zip b) = true ↔
        ∀ i (hia : i < a.length) (hib : i < b.length),
          a.get ⟨i, hia⟩ = b.get ⟨i, hib⟩) := by
  intro a
  induction a with
  | nil =>
    intro b
    constructor
    · intro _ i hia _
      exact absurd hia (Nat.not_lt_zero i)
    · intro _
      rfl
  | cons x xs ih =>
    intro b
    cases b with
    | nil =>
      constructor
      · intro _ i _ hib
        exact absurd hib (Nat.not_lt_zero i)
      · intro _
        rfl
    | cons y ys =>
      have hz : (x :: xs).zip (y :: ys) = (x, y) :: xs.zip ys := rfl
      constructor
      · intro h i hia hib
        rw [hz] at h
        have hx : x = y ∧ constraintsSatisfied (xs.zip ys) = true := by
          simpa [constraintsSatisfied] using h
        match i with
        | 0 => exact hx.1
        | j + 1 =>
          exact (ih ys).mp hx.2 j (Nat.lt_of_succ_lt_succ hia)
            (Nat.lt_of_succ_lt_succ hib)
      · intro h
        rw [hz]
        have hx : x = y := h 0 (Nat.succ_pos _) (Nat.succ_pos _)
        have hrest := (ih ys).mpr fun j hja hjb =>
          h (j + 1) (Nat.succ_lt_succ hja) (Nat.succ_lt_succ hjb)
        simpa [constraintsSatisfied, hx] using hrest

/-- C2: for non-empty `shorter` and `larger` with
`len(shorter) ≤ len(larger)`, `generate_constraints` succeeds and
builds exactly the pairwise system over `shorter` and the first
`len(shorter)` elements of `larger`; that system is satisfied iff
`larger[i] = shorter[i]` at every index `i < len(shorter)`; and the
system depends only on the first `len(shorter)` elements of `larger`,
so the remaining tail of the witness carries no constraint. -/
theorem generate_constraints_spec {F : Type} [DecidableEq F]
    (shorter larger : List F) (hs : shorter ≠ []) (hl : larger ≠ [])
    (hlen : shorter.length ≤ larger.length) :
    generate_constraints (CompareCircuit.new shorter larger) =
      .ok ((larger.take shorter.length).zip shorter) ∧
    (constraintsSatisfied ((larger.take shorter.length).zip shorter) = true ↔
      ∀ i (hi : i < shorter.length),
        larger.get ⟨i, lt_of_lt_of_le hi hlen⟩ = shorter.get ⟨i, hi⟩) ∧
    (∀ larger2 : List F, larger2 ≠ [] → shorter.length ≤ larger2.length →
      larger2.take shorter.length = larger.take shorter.length →
      generate_constraints (CompareCircuit.new shorter larger2) =
        generate_constraints (CompareCircuit.new shorter larger)) := by
  have h1 : shorter.isEmpty = false := by simpa [List.isEmpty_iff] using hs
  have h2 : larger.isEmpty = false := by simpa [List.isEmpty_iff] using hl
  have h3 : ¬shorter.length > larger.length := Nat.not_lt.mpr hlen
  refine ⟨?_, ?_, ?_⟩
  · simp [generate_constraints, CompareCircuit.new, h1, h2, h3]
  · rw [constraintsSatisfied_zip_iff]
    constructor
    · intro h i hi
      have hta : i < (larger.take shorter.length).length := by
        simp only [List.length_take]
        omega
      have hgt : (larger.take shorter.length).get ⟨i, hta⟩ =
          larger.get ⟨i, lt_of_lt_of_le hi hlen⟩ := by
        simp [List.getElem_take]
      rw [← hgt]
      exact h i hta hi
    · intro h i hia hib
      have hgt : (larger.take shorter.length).get ⟨i, hia⟩ =
          larger.get ⟨i, lt_of_lt_of_le hib hlen⟩ := by
        simp [List.getElem_take]
      rw [hgt]
      exact h i hib
  · intro larger2 hl2 hlen2 htake
    have h2b : larger2.isEmpty = false := by simpa [List.isEmpty_iff] using hl2
    have h3b : ¬shorter.length > larger2.length := Nat.not_lt.mpr hlen2
    simp [generate_constraints, CompareCircuit.new, h1, h2, h3, h2b, h3b, htake]

/-- Witness for C2 at a concrete input over the prime field `ZMod 101`:
`shorter = "abc"` as field elements `[97, 98, 99]`, `larger =
[97, 98, 99, 100]`; the generated system is the three pairwise
equalities and it is satisfied. -/
theorem generate_constraints_spec_witness :
    generate_constraints (CompareCircuit.new
        ([97, 98, 99] : List (ZMod 101)) [97, 98, 99, 100]) =
      .ok [(97, 97), (98, 98), (99, 99)] ∧
    constraintsSatisfied
      ([((97 : ZMod 101), 97), (98, 98), (99, 99)]) = true := by
  constructor
  · have h := (generate_constraints_spec ([97, 98, 99] : List (ZMod 101))
      [97, 98, 99, 100] (by decide) (by decide) (by decide)).1
    simpa using h
  · decide

/-! ## Theorems for claim C4: degenerate instances are rejected with an
explicit error -/

/-- C4: for every degenerate instance — empty `shorter`, empty
`larger`, or `shorter` longer than `larger` — both `create_proof`
(`Groth16::prove`, which synthesizes the circuit and propagates its
error) and `setup_groth16` (`Groth16::circuit_specific_setup`,
likewise) return the explicit invalid-instance error
`SynthesisError::Unsatisfiable`: no proof or key material is produced
and no panic occurs (the functions are total), and the outcome is the
`error` branch of the result type, distinct from a verification
returning `ok false`. -/
theorem degenerate_instances_rejected {F : Type} (shorter larger : List F)
    (h : shorter = [] ∨ larger = [] ∨ shorter.length > larger.length) :
    create_proof (CompareCircuit.new shorter larger) = .error .unsatisfiable ∧
    setup_groth16 (CompareCircuit.new shorter larger) = .error .unsatisfiable ∧
    (∀ cs, create_proof (CompareCircuit.new shorter larger) ≠ .ok cs) := by
  have hg : generate_constraints (CompareCircuit.new shorter larger) =
      .error .unsatisfiable := by
    rcases h with h | h | h
    · simp [generate_constraints, CompareCircuit.new, h]
    · simp [generate_constraints, CompareCircuit.new, h]
    · simp [generate_constraints, CompareCircuit.new, h]
  refine ⟨hg, ?_, ?_⟩
  · simp [setup_groth16, hg, Except.map]
  · intro cs hcs
    rw [create_proof, hg] at hcs
    cases hcs

/-- Witness for C4 at concrete inputs over `ZMod 101`: all three
degenerate shapes. -/
theorem degenerate_instances_rejected_witness :
    (create_proof (CompareCircuit.new ([] : List (ZMod 101)) [1]) =
      .error .unsatisfiable) ∧
    (create_proof (CompareCircuit.new ([1] : List (ZMod 101)) []) =
      .error .unsatisfiable) ∧
    (setup_groth16 (CompareCircuit.new ([1, 2] : List (ZMod 101)) [1]) =
      .error .unsatisfiable) :=
  ⟨(degenerate_instances_rejected ([] : List (ZMod 101)) [1]
      (Or.inl rfl)).1,
   (degenerate_instances_rejected ([1] : List (ZMod 101)) []
      (Or.inr (Or.inl rfl))).1,
   (degenerate_instances_rejected ([1, 2] : List (ZMod 101)) [1]
      (Or.inr (Or.inr (by decide)))).2.1⟩

/-! ## Theorem for claim C3: the signature scheme is correct -/

/-- C3: for every challenge-derivation function `H` (the embedding of
the SHA-256 based `hash` followed by `from_be_bytes_mod_order`, which
`sign` and `verify` both apply to the same message, public key and
commitment), every private scalar, signing nonce and message:
`verify(public, sign(keypair, m), m) = true`, where `verify`
recomputes `c` identically to signing and accepts iff
`R + public_key * c = generator * z`. -/
theorem sign_verify_correct
    (H : List Nat → BlsScalar → BlsScalar → BlsScalar)
    (privateKey r : BlsScalar) (message : List Nat) :
    verify H (generate_key_pair privateKey).public_key
      (sign H (generate_key_pair privateKey) r message) message = true := by
  simp only [verify, sign, generate_key_pair, g1Generator, mul_one,
    decide_eq_true_eq]
  ring

/-! ## Theorems for claim C8: the attestation result and the location -/

/-- C8 counterexample: the claim says every successful composed
attestation run's result contains the fetched location output — i.e.
some uniform projection recovers the location from the result.  No
such projection exists: `sign_location` and the composed run are
generic over the `Signer` capability, and under a signer returning a
fixed signature (a legitimate instance — the trait promises nothing
about injectivity) two successful runs with different locations
produce identical results. -/
theorem oracle_result_lacks_location_counterexample :
    ¬∃ recover : List Nat → List Nat,
      ∀ (L : LocationSource) (S : SignerCap) (H : HasherCap)
        (accuracy : Nat) (key sig : List Nat),
        oracle_run L S H accuracy key = .ok sig →
        ∃ loc, L.current_location accuracy = .ok loc ∧ recover sig = loc := by
  rintro ⟨recover, h⟩
  have h0 := h (constLocation [0]) constSigner idHasher 0 [] [] rfl
  have h1 := h (constLocation [1]) constSigner idHasher 0 [] [] rfl
  rcases h0 with ⟨loc0, hl0, hr0⟩
  rcases h1 with ⟨loc1, hl1, hr1⟩
  have e0 : loc0 = [0] := by simpa [constLocation] using hl0.symm
  have e1 : loc1 = [1] := by simpa [constLocation] using hl1.symm
  rw [e0] at hr0
  rw [e1] at hr1
  rw [hr0] at hr1
  simp at hr1

/-- C8 amended: the composed attestation run returns the signature
alone: every successful run's result is exactly the signature the
signer produced over `hash(location bytes)` for the fetched location,
with the first failing stage short-circuiting the run; the location
itself is not part of the result. -/
theorem oracle_run_returns_signature_only (L : LocationSource)
    (S : SignerCap) (H : HasherCap) (accuracy : Nat) (key sig : List Nat) :
    oracle_run L S H accuracy key = .ok sig →
    ∃ loc, L.current_location accuracy = .ok loc ∧
      S.sign (H.hash loc) key = .ok sig := by
  intro h
  unfold oracle_run at h
  rcases hl : L.current_location accuracy with e | loc
  · rw [hl] at h
    simp at h
  · rw [hl] at h
    rcases hs : sign_location S H key loc with e | sg
    · simp [hs] at h
    · simp [hs] at h
      subst h
      exact ⟨loc, rfl, by simpa [sign_location] using hs⟩

/-- Witness for the amended C8 at a concrete input: a fixed location
`[98]`, the identity hasher and the concatenating signer with key
`[7]`; the successful result is the signature `[98, 7]` over the
hashed location. -/
theorem oracle_run_returns_signature_only_witness :
    ∃ loc, (constLocation [98]).current_location 5 = .ok loc ∧
      concatSigner.sign (idHasher.hash loc) [7] = .ok [98, 7] :=
  oracle_run_returns_signature_only (constLocation [98]) concatSigner
    idHasher 5 [7] [98, 7] rfl

end Aoi
